import Mathlib

/-!
Shallow embedding of the Sawt restaurant-ordering system
(conversation FSM, cart tools, checkout, promo validation,
restaurant-hours gate, handoff routing and delivery-coverage lookup),
translated from the Python sources under `src/sawt/`.
-/

namespace Sawt

/-! ### Conversation finite-state machine — `src/sawt/state/machine.py` -/

inductive FSMState where
  | S0_INIT
  | S1_INTENT
  | S2_GREETING
  | S3_LOCATION
  | S4_ORDERING
  | S5_CHECKOUT
  | S6_FINALIZED
  | S_COMPLAINT
  | S_FALLBACK
deriving DecidableEq, Repr, Fintype

inductive FSMTrigger where
  | START
  | RETRY
  | EXIT
  | INTENT_ORDERING
  | INTENT_COMPLAINT
  | INTENT_INQUIRY
  | INTENT_OTHER
  | CONFIRM_ORDER
  | NOT_ORDERING
  | ADDRESS_VALID
  | ADDRESS_INVALID
  | PICKUP_CHOSEN
  | RESTAURANT_CLOSED
  | CHECKOUT
  | CONTINUE_ORDERING
  | ORDER_CONFIRMED
  | MODIFY_ORDER
  | CANCEL
  | RESOLVED
  | ESCALATE
deriving DecidableEq, Repr, Fintype

/-- The `TRANSITIONS` table of `state/machine.py`, as the function
`get_next_state(current_state, trigger)` (returns `None` for an entry
missing from the table). -/
def getNextState : FSMState → FSMTrigger → Option FSMState
  | .S0_INIT, .START => some .S1_INTENT
  | .S1_INTENT, .INTENT_ORDERING => some .S2_GREETING
  | .S1_INTENT, .INTENT_COMPLAINT => some .S_COMPLAINT
  | .S1_INTENT, .INTENT_INQUIRY => some .S_FALLBACK
  | .S1_INTENT, .INTENT_OTHER => some .S_FALLBACK
  | .S2_GREETING, .CONFIRM_ORDER => some .S3_LOCATION
  | .S2_GREETING, .NOT_ORDERING => some .S_FALLBACK
  | .S2_GREETING, .RESTAURANT_CLOSED => some .S6_FINALIZED
  | .S3_LOCATION, .ADDRESS_VALID => some .S4_ORDERING
  | .S3_LOCATION, .PICKUP_CHOSEN => some .S4_ORDERING
  | .S3_LOCATION, .RESTAURANT_CLOSED => some .S6_FINALIZED
  | .S3_LOCATION, .CANCEL => some .S0_INIT
  | .S4_ORDERING, .CHECKOUT => some .S5_CHECKOUT
  | .S4_ORDERING, .CONTINUE_ORDERING => some .S4_ORDERING
  | .S4_ORDERING, .CANCEL => some .S0_INIT
  | .S5_CHECKOUT, .ORDER_CONFIRMED => some .S6_FINALIZED
  | .S5_CHECKOUT, .MODIFY_ORDER => some .S4_ORDERING
  | .S5_CHECKOUT, .CANCEL => some .S0_INIT
  | .S6_FINALIZED, .START => some .S1_INTENT
  | .S_COMPLAINT, .RESOLVED => some .S2_GREETING
  | .S_COMPLAINT, .ESCALATE => some .S6_FINALIZED
  | .S_FALLBACK, .RETRY => some .S1_INTENT
  | .S_FALLBACK, .EXIT => some .S6_FINALIZED
  | .S_FALLBACK, .INTENT_ORDERING => some .S2_GREETING
  | _, _ => none

/-- `is_valid_transition` of `state/machine.py`. -/
def isValidTransition (s : FSMState) (t : FSMTrigger) : Bool :=
  (getNextState s t).isSome

/-! ### Session cart lines — the dicts built by `src/sawt/tools/order_tools.py` -/

/-- One cart line, as stored in the per-session `_orders` map
(`order_tools.py`).  Python floats are modelled as exact rationals. -/
structure OrderLine where
  item_id : String
  name_ar : String
  name_en : String
  quantity : Int
  price : ℚ
  notes : String
  line_total : ℚ
deriving DecidableEq, Repr

/-- One entry of the `_menu_cache` dict (`menu_tools.py`). -/
structure MenuItem where
  name_ar : String
  name_en : String
  price : ℚ
  available : Bool
deriving DecidableEq, Repr

/-- The menu cache, keyed by item id. -/
abbrev Menu := List (String × MenuItem)

/-- Dict lookup `menu[item_id]` (with the `item_id not in menu` test). -/
def menuLookup (menu : Menu) (item_id : String) : Option MenuItem :=
  (menu.find? (fun e => e.1 == item_id)).map (·.2)

/-- `sum(item["line_total"] for item in order)`. -/
def cartSubtotal (cart : List OrderLine) : ℚ :=
  (cart.map (·.line_total)).sum

/-- `sum(item["quantity"] for item in order)`. -/
def cartItemCount (cart : List OrderLine) : Int :=
  (cart.map (·.quantity)).sum

/-- The cart update of `add_to_order` (`order_tools.py` lines 82-95):
find the first existing line with the same `(item_id, notes)` pair and
bump its quantity (recomputing `line_total` from the stored `price`),
otherwise append a fresh line priced from the menu item. -/
def mergeOrAppend (item : MenuItem) (item_id : String) (quantity : Int)
    (notes : String) : List OrderLine → List OrderLine
  | [] =>
    [{ item_id := item_id, name_ar := item.name_ar, name_en := item.name_en,
       quantity := quantity, price := item.price, notes := notes,
       line_total := item.price * (quantity : ℚ) }]
  | l :: ls =>
    if l.item_id = item_id ∧ l.notes = notes then
      { l with quantity := l.quantity + quantity,
               line_total := l.price * ((l.quantity + quantity : Int) : ℚ) } :: ls
    else
      l :: mergeOrAppend item item_id quantity notes ls

/-- The JSON result of `add_to_order`. -/
structure AddResult where
  success : Bool
  message_ar : String
  current_total : ℚ
  item_count : Int
deriving DecidableEq, Repr

/-- `add_to_order(item_id, quantity, notes)` (`order_tools.py` lines 29-109)
acting on one session's cart; returns the tool result and the new cart. -/
def addToOrder (menu : Menu) (item_id : String) (quantity : Int) (notes : String)
    (cart : List OrderLine) : AddResult × List OrderLine :=
  match menuLookup menu item_id with
  | none =>
    ({ success := false, message_ar := "الصنف غير موجود: " ++ item_id,
       current_total := 0, item_count := 0 }, cart)
  | some item =>
    if item.available = false then
      ({ success := false,
         message_ar := "للأسف " ++ item.name_ar ++ " غير متوفر حالياً",
         current_total := 0, item_count := 0 }, cart)
    else
      let cart1 := mergeOrAppend item item_id quantity notes cart
      ({ success := true, message_ar := "تمام! أضفت " ++ item.name_ar,
         current_total := cartSubtotal cart1,
         item_count := cartItemCount cart1 }, cart1)

/-- `update_order_item`'s `"action"` field. -/
inductive UpdateAction where
  | removed
  | updated
deriving DecidableEq, Repr

/-- The JSON result of `update_order_item`. -/
structure UpdateResult where
  success : Bool
  action : Option UpdateAction
  message_ar : String
deriving DecidableEq, Repr

/-- Replace the element at index `i` (a no-op past the end), mirroring the
in-place assignment `order[idx] = ...` / field mutation on `order[idx]`. -/
def listModify (f : OrderLine → OrderLine) : List OrderLine → Nat → List OrderLine
  | [], _ => []
  | l :: ls, 0 => f l :: ls
  | l :: ls, n + 1 => l :: listModify f ls n

/-- `update_order_item(item_id, quantity, notes)` (`order_tools.py` lines
166-229).  A raised Python exception is modelled as `Except.error`:
`order[item_idx]["notes"] = notes` raises `IndexError` when `item_idx` is
out of range after the `pop`, and the final `log_tool_result(..., result)`
raises `UnboundLocalError` when neither branch assigned `result`. -/
def updateOrderItem (item_id : String) (quantity : Option Int)
    (notes : Option String) (cart : List OrderLine) :
    Except String (UpdateResult × List OrderLine) :=
  match cart.findIdx? (fun l => l.item_id == item_id) with
  | none =>
    .ok ({ success := false, action := none,
           message_ar := "الصنف مو موجود في السلة" }, cart)
  | some idx =>
    let step : Option UpdateResult × List OrderLine :=
      match quantity with
      | none => (none, cart)
      | some q =>
        if q ≤ 0 then
          (some { success := true, action := some .removed,
                  message_ar := "شلت الصنف من السلة" },
           cart.eraseIdx idx)
        else
          (some { success := true, action := some .updated,
                  message_ar := "تمام، عدلت الكمية" },
           listModify (fun l => { l with quantity := q,
                                         line_total := l.price * (q : ℚ) }) cart idx)
    match notes with
    | none =>
      match step.1 with
      | none => .error "UnboundLocalError: result"
      | some r => .ok (r, step.2)
    | some nt =>
      if idx < step.2.length then
        .ok ({ success := true, action := some .updated,
               message_ar := "تمام، حدثت الملاحظات" },
             listModify (fun l => { l with notes := nt }) step.2 idx)
      else
        .error "IndexError: list index out of range"

/-! ### Input validation — `src/sawt/utils/validators.py` -/

/-- `validate_quantity(quantity)` returning `(is_valid, error_message_ar)`. -/
def validateQuantity (quantity : Int) : Bool × String :=
  if quantity < 1 then (false, "الكمية يجب أن تكون 1 على الأقل")
  else if quantity > 99 then (false, "الحد الأقصى للكمية هو 99")
  else (true, "")

/-! ### Checkout tools — `src/sawt/tools/checkout_tools.py` -/

/-- The result dict of `calculate_total`.  The early empty-cart return
carries only `success`/`message_ar`; the remaining fields are then the
zero defaults. -/
structure CalcResult where
  success : Bool
  message_ar : String
  subtotal : ℚ
  delivery_fee : ℚ
  discount : ℚ
  total : ℚ
  promo_applied : Bool
  promo_message : String
deriving DecidableEq, Repr

/-- Python `str.upper()` (the promo codes are ASCII). -/
def pyUpper (s : String) : String :=
  String.mk (s.data.map Char.toUpper)

/-- The promo branch of `calculate_total` (`checkout_tools.py` lines
208-231): three hard-coded codes, compared after `.upper()`.  Python's
float literals `0.10`/`0.20` are the exact rationals `10/100`/`20/100`,
and the `if discount > cap: discount = cap` clamp is `min`. -/
def promoDiscount (code_upper : String) (subtotal : ℚ) : ℚ × String :=
  if code_upper = "WELCOME10" then
    let d := subtotal * (10 / 100 : ℚ)
    (if d > 30 then (30 : ℚ) else d, "خصم 10% (حد أقصى 30 ريال)")
  else if code_upper = "FIRST20" then
    if subtotal ≥ 100 then
      let d := subtotal * (20 / 100 : ℚ)
      (if d > 50 then (50 : ℚ) else d, "خصم 20% (حد أقصى 50 ريال)")
    else (0, "الحد الأدنى للطلب 100 ريال لاستخدام هذا الكود")
  else if code_upper = "FREE15" then
    if subtotal ≥ 75 then ((15 : ℚ), "خصم 15 ريال")
    else (0, "الحد الأدنى للطلب 75 ريال لاستخدام هذا الكود")
  else (0, "كود الخصم غير صحيح")

/-- `calculate_total(session_id, delivery_fee, promo_code)`
(`checkout_tools.py` lines 174-260) on a session cart.  `promo_code`
equal to `None` or the empty string is falsy, skipping the promo branch. -/
def calculateTotal (cart : List OrderLine) (delivery_fee : ℚ)
    (promo_code : Option String) : CalcResult :=
  if cart.isEmpty then
    { success := false, message_ar := "السلة فارغة", subtotal := 0,
      delivery_fee := 0, discount := 0, total := 0, promo_applied := false,
      promo_message := "" }
  else
    let subtotal := cartSubtotal cart
    let dm : ℚ × String :=
      match promo_code with
      | none => (0, "")
      | some code =>
        if code = "" then (0, "") else promoDiscount (pyUpper code) subtotal
    { success := true, message_ar := "", subtotal := subtotal,
      delivery_fee := delivery_fee, discount := dm.1,
      total := subtotal + delivery_fee - dm.1,
      promo_applied := decide (dm.1 > 0), promo_message := dm.2 }

/-- A row of the `orders` table as inserted by
`save_order_to_database_sync`. -/
structure OrderRow where
  customer_name : String
  customer_phone : String
  delivery_address : String
  order_type : String
  subtotal : ℚ
  delivery_fee : ℚ
  discount_amount : ℚ
  total : ℚ
  status : String
  notes : String
deriving DecidableEq, Repr

/-- A row of the `order_items` table as inserted by
`save_order_to_database_sync`. -/
structure OrderItemRow where
  item_id : String
  item_name_ar : String
  quantity : Int
  unit_price : ℚ
  total_price : ℚ
  special_instructions : String
deriving DecidableEq, Repr

/-- `save_order_to_database_sync` (`checkout_tools.py` lines 20-103):
the header insert and every item insert run inside one transaction that
is rolled back on any exception, so the committed rows are all-or-nothing.
`storeOk` abstracts whether the connection and the transaction succeed;
the function returns the Python `bool` result together with the rows the
database ends up holding. -/
def saveOrderToDatabaseSync (storeOk : Bool) (header : OrderRow)
    (items : List OrderItemRow) : Bool × Option (OrderRow × List OrderItemRow) :=
  if storeOk then (true, some (header, items)) else (false, none)

/-- The observable outcome of one `confirm_order` invocation: the
`success`/`message_ar` fields of the returned dict, the computed total,
the session cart afterwards, whether the database reported the save, and
the rows committed to the store. -/
structure ConfirmOutcome where
  success : Bool
  message_ar : String
  total : ℚ
  cart : List OrderLine
  db_saved : Bool
  rowsWritten : Option (OrderRow × List OrderItemRow)
deriving DecidableEq, Repr

/-- The `orders` header row built by `confirm_order`. -/
def confirmHeader (customer_name customer_phone district order_type notes : String)
    (subtotal actual_fee discount total : ℚ) : OrderRow :=
  { customer_name := customer_name, customer_phone := customer_phone,
    delivery_address := district, order_type := order_type,
    subtotal := subtotal, delivery_fee := actual_fee,
    discount_amount := discount, total := total, status := "confirmed",
    notes := notes }

/-- The `order_items` rows built by `confirm_order` from the cart. -/
def confirmItems (cart : List OrderLine) : List OrderItemRow :=
  cart.map fun l =>
    { item_id := l.item_id, item_name_ar := l.name_ar, quantity := l.quantity,
      unit_price := l.price, total_price := l.line_total,
      special_instructions := l.notes }

/-- `confirm_order` (`checkout_tools.py` lines 264-425) acting on one
session cart.  After the three validations it computes the totals, stores
an in-memory backup, attempts the database save, unconditionally clears
the session cart (`clear_session_order`), and returns `success=True`
whether or not `db_saved` holds. -/
def confirmOrder (storeOk : Bool) (cart : List OrderLine)
    (customer_name customer_phone district : String)
    (delivery_fee discount : ℚ) (order_type notes : String) : ConfirmOutcome :=
  if cart.isEmpty then
    { success := false, message_ar := "السلة فارغة", total := 0, cart := cart,
      db_saved := false, rowsWritten := none }
  else if customer_name = "" then
    { success := false, message_ar := "يرجى إدخال الاسم", total := 0,
      cart := cart, db_saved := false, rowsWritten := none }
  else if customer_phone = "" then
    { success := false, message_ar := "يرجى إدخال رقم الجوال", total := 0,
      cart := cart, db_saved := false, rowsWritten := none }
  else
    let subtotal := cartSubtotal cart
    let actual_fee := if order_type = "delivery" then delivery_fee else 0
    let total := subtotal + actual_fee - discount
    let header := confirmHeader customer_name customer_phone district
      order_type notes subtotal actual_fee discount total
    let saved := saveOrderToDatabaseSync storeOk header (confirmItems cart)
    { success := true, message_ar := "", total := total, cart := [],
      db_saved := saved.1, rowsWritten := saved.2 }

/-! ### Restaurant hours — `src/sawt/utils/time_utils.py` and `config.py` -/

/-- `Settings.opening_hour` default. -/
def openingHour : ℕ := 9

/-- `Settings.closing_hour` default (cross-midnight). -/
def closingHour : ℕ := 3

/-- `is_restaurant_open` (`time_utils.py` lines 17-43) as a function of
the current Saudi-time hour-of-day. -/
def isRestaurantOpen (opening closing hour : ℕ) : Bool :=
  if closing < opening then
    decide (hour ≥ opening) || decide (hour < closing)
  else
    decide (opening ≤ hour) && decide (hour < closing)

/-! ### Promo repository — `src/sawt/db/repositories/promo_repo.py` -/

/-- One row of the `promo_codes` table.  Validity instants are abstract
integer timestamps; `Option` models SQL `NULL` (Python `None`). -/
structure PromoCode where
  code : String
  discount_type : String
  discount_value : ℚ
  min_order_amount : ℚ
  max_discount : Option ℚ
  usage_limit : Option ℕ
  usage_count : ℕ
  valid_from : Option ℤ
  valid_until : Option ℤ
  is_active : Bool
deriving DecidableEq, Repr

/-- `PromoRepository.validate_promo(code, subtotal)` (`promo_repo.py`
lines 32-81), with the `get_promo_by_code` lookup result and the clock
passed in.  Returns `(is_valid, discount_amount, message_ar)`.  Python
truthiness: a `usage_limit` or `max_discount` of `None` *or zero* skips
the corresponding check. -/
def validatePromo (lookup : Option PromoCode) (now : ℤ) (subtotal : ℚ) :
    Bool × ℚ × String :=
  match lookup with
  | none => (false, 0, "كود الخصم غير صحيح")
  | some promo =>
    if promo.is_active = false then
      (false, 0, "كود الخصم غير فعال")
    else if (match promo.usage_limit with
             | some l => decide (l ≠ 0) && decide (promo.usage_count ≥ l)
             | none => false) then
      (false, 0, "تم استنفاد عدد استخدامات هذا الكود")
    else if (match promo.valid_from with
             | some vf => decide (now < vf)
             | none => false) then
      (false, 0, "كود الخصم لم يبدأ بعد")
    else if (match promo.valid_until with
             | some vu => decide (now > vu)
             | none => false) then
      (false, 0, "انتهت صلاحية كود الخصم")
    else if subtotal < promo.min_order_amount then
      (false, 0, "الحد الأدنى للطلب")
    else
      let d :=
        if promo.discount_type = "percentage" then
          let d0 := subtotal * promo.discount_value / 100
          match promo.max_discount with
          | some m => if m ≠ 0 then min d0 m else d0
          | none => d0
        else promo.discount_value
      (true, min d subtotal, "تم تطبيق الخصم")

/-- A cart item dict as the MCP tools see it (`total_price` key). -/
structure McpCartItem where
  total_price : ℚ
  quantity : Int
deriving DecidableEq, Repr

/-- `Settings.delivery_fee` default (SAR). -/
def settingsDeliveryFee : ℚ := 15

/-- The result dict of the MCP `compute_totals` tool. -/
structure TotalsResult where
  subtotal : ℚ
  delivery_fee : ℚ
  discount : ℚ
  total : ℚ
  promo_message_ar : String
deriving DecidableEq, Repr

/-- `compute_totals(cart_items, promo_code, order_type)`
(`mcp_server/tools/order.py` lines 17-76), with the promo lookup result
and clock passed in to stand for the repository call. -/
def computeTotals (cart_items : List McpCartItem) (lookup : Option PromoCode)
    (now : ℤ) (promo_code : Option String) (order_type : String) : TotalsResult :=
  let subtotal := (cart_items.map (·.total_price)).sum
  let delivery_fee := if order_type = "delivery" then settingsDeliveryFee else 0
  let dm : ℚ × String :=
    match promo_code with
    | none => (0, "")
    | some c =>
      if c = "" then (0, "")
      else
        let v := validatePromo lookup now subtotal
        if v.1 then (v.2.1, v.2.2) else (0, v.2.2)
  { subtotal := subtotal, delivery_fee := delivery_fee, discount := dm.1,
    total := subtotal + delivery_fee - dm.1, promo_message_ar := dm.2 }

/-! ### Agent-handoff routing — `src/sawt/graph/workflow.py` -/

/-- A handoff target (`extract_handoff`); `ended` stands for `"end"`. -/
inductive Stage where
  | greeting
  | location
  | order
  | checkout
  | ended
deriving DecidableEq, Repr, Fintype

/-- The routing-relevant `AgentState` fields. -/
structure RouteState where
  current_agent : Stage
  came_from_checkout : Bool
  came_from_order : Bool
deriving DecidableEq, Repr, Fintype

/-- The handoff-processing tail of `call_location_agent` (`workflow.py`
lines 366-416): `emitted` is the marker extracted from the agent's last
message (`None` when there is no marker).  A raw `order` marker is
redirected to `checkout` iff `came_from_checkout` is set, a raw
`checkout` marker is redirected to `order` when it is not, and both
breadcrumbs are cleared whenever a marker was present. -/
def locationAgentHandoff (st : RouteState) (emitted : Option Stage) : RouteState :=
  match emitted with
  | none => st
  | some h =>
    let h1 :=
      if h = Stage.order ∧ st.came_from_checkout = true then Stage.checkout
      else if h = Stage.checkout ∧ st.came_from_checkout = false then Stage.order
      else h
    { current_agent := h1, came_from_checkout := false, came_from_order := false }

/-- The handoff-processing tail of `call_checkout_agent` (`workflow.py`
lines 537-563): a backward `location` marker sets the
`came_from_checkout` breadcrumb. -/
def checkoutAgentHandoff (st : RouteState) (emitted : Option Stage) : RouteState :=
  match emitted with
  | none => st
  | some h =>
    if h = Stage.location then
      { st with current_agent := h, came_from_checkout := true }
    else
      { st with current_agent := h }

/-- The handoff-processing tail of `call_order_agent` (`workflow.py`
lines 461-492): a backward `location` marker sets the `came_from_order`
breadcrumb. -/
def orderAgentHandoff (st : RouteState) (emitted : Option Stage) : RouteState :=
  match emitted with
  | none => st
  | some h =>
    if h = Stage.location then
      { st with current_agent := h, came_from_order := true }
    else
      { st with current_agent := h }

/-- A node of the compiled LangGraph graph (`finish` stands for `END`). -/
inductive GraphNode where
  | greeting_node
  | location_node
  | order_node
  | checkout_node
  | finish
deriving DecidableEq, Repr, Fintype

/-- `route_after_location` (`workflow.py` lines 577-587). -/
def routeAfterLocation (current : Stage) : GraphNode :=
  match current with
  | .order => .order_node
  | .checkout => .checkout_node
  | _ => .finish

/-! ### Orchestrator transition step — `src/sawt/agents/orchestrator.py` -/

/-- The session fields the transition step touches. -/
structure OrchSession where
  state : FSMState
  cart : List OrderLine
deriving DecidableEq, Repr

/-- The trigger application of `Orchestrator.handle_message`
(`orchestrator.py` lines 112-115): when an agent returned a trigger and
`get_next_state` accepts it, only `session.state` is reassigned; no
other session field (in particular the cart) is touched, and
`SessionState.clear_cart` has no caller anywhere in the repository. -/
def applyTrigger (session : OrchSession) (trigger : Option FSMTrigger) : OrchSession :=
  match trigger with
  | none => session
  | some t =>
    match getNextState session.state t with
    | some s1 => { session with state := s1 }
    | none => session

/-! ### Arabic normalization — `src/sawt/utils/arabic_utils.py` -/

/-- The tashkeel range removed by `clean_arabic_text`
(`[ً-ٰٟ]`). -/
def isArabicDiacritic (c : Char) : Bool :=
  (decide (0x64B ≤ c.toNat) && decide (c.toNat ≤ 0x65F)) || decide (c.toNat = 0x670)

/-- The per-character substitutions of `clean_arabic_text`: alef variants
to plain alef and teh marbuta to heh. -/
def normalizeChar (c : Char) : Char :=
  if c = 'أ' ∨ c = 'إ' ∨ c = 'آ' then 'ا'
  else if c = 'ة' then 'ه'
  else c

/-- Split into maximal whitespace-free words (Python `str.split()`). -/
def splitWordsAux : List Char → List Char → List (List Char)
  | [], acc => if acc.isEmpty then [] else [acc.reverse]
  | c :: cs, acc =>
    if c.isWhitespace then
      if acc.isEmpty then splitWordsAux cs []
      else acc.reverse :: splitWordsAux cs []
    else
      splitWordsAux cs (c :: acc)

/-- `clean_arabic_text(text)` on the character list of the string:
diacritic removal, alef/teh-marbuta normalization, tatweel removal, then
`" ".join(text.split())` (which also strips). -/
def cleanArabicText (s : List Char) : List Char :=
  let s1 := (s.filter (fun c => !(isArabicDiacritic c))).map normalizeChar
  let s2 := s1.filter (fun c => c ≠ 'ـ')
  List.intercalate [' '] (splitWordsAux s2 [])

/-- The prefixes stripped by `normalize_area_name`. -/
def areaNamePrefixes : List (List Char) :=
  ["حي ", "منطقة ", "شارع ", "طريق "].map String.data

/-- `str.strip()`. -/
def stripChars (s : List Char) : List Char :=
  ((s.dropWhile Char.isWhitespace).reverse.dropWhile Char.isWhitespace).reverse

/-- `normalize_area_name(name)` (`arabic_utils.py` lines 37-53). -/
def normalizeAreaName (name : String) : List Char :=
  let n1 := cleanArabicText name.data
  let n2 := areaNamePrefixes.foldl
    (fun acc p => if p.isPrefixOf acc then acc.drop p.length else acc) n1
  stripChars n2

/-! ### Delivery coverage — `src/sawt/db/repositories/coverage_repo.py`,
`src/sawt/mcp_server/tools/coverage.py` and `scripts/seed_areas.py` -/

/-- One row of the `covered_areas` table. -/
structure CoveredArea where
  id : ℕ
  name_ar : String
  name_en : String
  aliases_ar : List String
  is_active : Bool
deriving DecidableEq, Repr

/-- The rows seeded by `scripts/seed_areas.py` (ids in insertion order;
`is_active` defaults to true). -/
def seededAreas : List CoveredArea :=
  [ ⟨1, "حي النرجس", "Al Narjis", ["النرجس", "نرجس"], true⟩,
    ⟨2, "حي الياسمين", "Al Yasmin", ["الياسمين", "ياسمين"], true⟩,
    ⟨3, "حي الملقا", "Al Malqa", ["الملقا", "ملقا"], true⟩,
    ⟨4, "حي الصحافة", "Al Sahafa", ["الصحافة", "صحافة"], true⟩,
    ⟨5, "حي العقيق", "Al Aqiq", ["العقيق", "عقيق"], true⟩,
    ⟨6, "حي الورود", "Al Wurud", ["الورود", "ورود"], true⟩,
    ⟨7, "حي الروضة", "Al Rawdah", ["الروضة", "روضة"], true⟩,
    ⟨8, "حي الربوة", "Al Rabwah", ["الربوة", "ربوة"], true⟩,
    ⟨9, "حي السليمانية", "Al Sulaymaniyah", ["السليمانية", "سليمانية"], true⟩,
    ⟨10, "حي الملك فهد", "King Fahd District", ["الملك فهد", "ملك فهد"], true⟩,
    ⟨11, "حي العليا", "Al Olaya", ["العليا", "عليا"], true⟩,
    ⟨12, "حي النخيل", "Al Nakheel", ["النخيل", "نخيل"], true⟩,
    ⟨13, "حي الغدير", "Al Ghadir", ["الغدير", "غدير"], true⟩,
    ⟨14, "حي القيروان", "Al Qairawan", ["القيروان", "قيروان"], true⟩,
    ⟨15, "حي الرمال", "Al Rimal", ["الرمال", "رمال"], true⟩ ]

/-- `CoverageRepository.find_area_by_name`: exact `name_ar`/`name_en`
match on active rows, then alias membership (`= ANY(aliases_ar)`). -/
def findAreaByName (areas : List CoveredArea) (name : List Char) :
    Option CoveredArea :=
  match areas.find? (fun a =>
      a.is_active && (a.name_ar.data == name || a.name_en.data == name)) with
  | some a => some a
  | none =>
    areas.find? (fun a =>
      a.is_active && a.aliases_ar.any (fun al => al.data == name))

/-- Contiguous-substring test (SQL `LIKE '%needle%'`). -/
def listInfix (needle : List Char) : List Char → Bool
  | [] => needle.isEmpty
  | c :: cs => needle.isPrefixOf (c :: cs) || listInfix needle cs

/-- Case-insensitive containment (SQL `ILIKE '%term%'`). -/
def ilikeContains (hay : String) (term : List Char) : Bool :=
  listInfix (term.map Char.toLower) (hay.data.map Char.toLower)

/-- `CoverageRepository.search_area`: active rows whose `name_ar`,
`name_en` or an alias contains the term, limit 5. -/
def searchArea (areas : List CoveredArea) (term : List Char) : List CoveredArea :=
  (areas.filter (fun a =>
    a.is_active &&
      (ilikeContains a.name_ar term || ilikeContains a.name_en term ||
       a.aliases_ar.any (fun al => ilikeContains al term)))).take 5

/-- The outcome of `CoverageRepository.check_coverage`. -/
inductive CoverageAnswer where
  | covered (area : CoveredArea)
  | suggestions (areas : List CoveredArea)
  | notCovered
deriving DecidableEq, Repr

/-- `CoverageRepository.check_coverage(area_name)` (`coverage_repo.py`
lines 92-112). -/
def checkCoverage (areas : List CoveredArea) (area_name : List Char) :
    CoverageAnswer :=
  let name := stripChars area_name
  match findAreaByName areas name with
  | some a => .covered a
  | none =>
    let sugg := searchArea areas name
    if sugg.isEmpty then .notCovered else .suggestions sugg

/-- The fields of the MCP `coverage_check` result dict the claims refer
to (`mcp_server/tools/coverage.py` lines 12-51). -/
structure CoverageCheckResult where
  is_covered : Bool
  area_id : Option ℕ
  suggestion_ids : List ℕ
deriving DecidableEq, Repr

/-- The MCP `coverage_check(area_name)` tool: normalize, then query the
repository; at most three suggestions are surfaced. -/
def coverageCheck (areas : List CoveredArea) (area_name : String) :
    CoverageCheckResult :=
  match checkCoverage areas (normalizeAreaName area_name) with
  | .covered a => { is_covered := true, area_id := some a.id, suggestion_ids := [] }
  | .suggestions s =>
    { is_covered := false, area_id := none,
      suggestion_ids := (s.take 3).map (·.id) }
  | .notCovered => { is_covered := false, area_id := none, suggestion_ids := [] }

/-- Whether a covered area's stored strings are free of teh marbuta
(`ة`), the character `clean_arabic_text` rewrites to `ه`. -/
def marbutaFree (a : CoveredArea) : Bool :=
  a.name_ar.data.all (fun c => c ≠ 'ة') &&
    a.aliases_ar.all (fun al => al.data.all (fun c => c ≠ 'ة'))

/-! ## Theorems -/

/-- The `if discount > cap: discount = cap` clamp used by
`calculate_total` is the binary minimum. -/
theorem ite_gt_clamp_eq_min (d c : ℚ) : (if d > c then c else d) = min d c := by
  rw [min_def]
  split
  · next h => rw [if_neg (not_le.mpr h)]
  · next h => rw [if_pos (not_lt.mp h)]

/--
C2.  Backward-handoff breadcrumb routing: when the Location stage emits
the forward marker `order`, the next stage is CHECKOUT iff
`came_from_checkout` is set (and ORDERING otherwise), both breadcrumbs
are cleared whenever a marker is processed, and a backward handoff from
CHECKOUT to LOCATION followed by any forward marker lands in CHECKOUT,
never ORDERING.
-/
theorem location_breadcrumb_routing :
    (∀ st : RouteState,
      (locationAgentHandoff st (some Stage.order)).current_agent =
        (if st.came_from_checkout then Stage.checkout else Stage.order) ∧
      routeAfterLocation (locationAgentHandoff st (some Stage.order)).current_agent =
        (if st.came_from_checkout then GraphNode.checkout_node else GraphNode.order_node)) ∧
    (∀ st : RouteState, ∀ h : Stage,
      (locationAgentHandoff st (some h)).came_from_checkout = false ∧
      (locationAgentHandoff st (some h)).came_from_order = false) ∧
    (∀ st : RouteState, ∀ h : Stage, h = Stage.order ∨ h = Stage.checkout →
      (locationAgentHandoff (checkoutAgentHandoff st (some Stage.location))
        (some h)).current_agent = Stage.checkout) := by
  decide

/-- C2 witness: a session that went CHECKOUT → LOCATION and then forward
via `order` ends up back at CHECKOUT. -/
theorem location_breadcrumb_routing_witness :
    (locationAgentHandoff
      (checkoutAgentHandoff ⟨Stage.checkout, false, false⟩ (some Stage.location))
      (some Stage.order)).current_agent = Stage.checkout :=
  location_breadcrumb_routing.2.2 ⟨Stage.checkout, false, false⟩ Stage.order (Or.inl rfl)

/-- C3 counterexample: GREETING is not FINALIZED, yet the transition
table has no `cancel` entry for it, so `cancel` is not a valid
transition there (likewise for INIT, INTENT, COMPLAINT and FALLBACK). -/
theorem cancel_not_universal_cex :
    FSMState.S2_GREETING ≠ FSMState.S6_FINALIZED ∧
    getNextState FSMState.S2_GREETING FSMTrigger.CANCEL = none ∧
    isValidTransition FSMState.S2_GREETING FSMTrigger.CANCEL = false ∧
    getNextState FSMState.S0_INIT FSMTrigger.CANCEL = none := by
  decide

/--
C3 (amended).  `cancel` is a valid transition exactly from LOCATION,
ORDERING and CHECKOUT, always targeting INIT; and the orchestrator's
trigger application only reassigns the FSM state — it never empties the
cart (`SessionState.clear_cart` has no caller).
-/
theorem cancel_transitions_amended :
    (∀ s : FSMState, isValidTransition s FSMTrigger.CANCEL = true ↔
      (s = FSMState.S3_LOCATION ∨ s = FSMState.S4_ORDERING ∨
       s = FSMState.S5_CHECKOUT)) ∧
    (∀ s : FSMState, getNextState s FSMTrigger.CANCEL = none ∨
      getNextState s FSMTrigger.CANCEL = some FSMState.S0_INIT) ∧
    (∀ session : OrchSession, ∀ t : Option FSMTrigger,
      (applyTrigger session t).cart = session.cart) := by
  refine ⟨by decide, by decide, ?_⟩
  intro session t
  unfold applyTrigger
  split
  · rfl
  · split <;> rfl

/--
C6.  Restaurant-hours gate with midnight wrap: with the configured
opening hour 9 and closing hour 3, `is_restaurant_open` holds exactly
when `hour ≥ 9` or `hour < 3`; hour 2 (02:59) is open, hour 3 closed,
hour 8 (08:59) closed, hour 9 open.
-/
theorem restaurant_hours_gate :
    (∀ hour : ℕ, isRestaurantOpen openingHour closingHour hour =
      (decide (hour ≥ 9) || decide (hour < 3))) ∧
    isRestaurantOpen openingHour closingHour 2 = true ∧
    isRestaurantOpen openingHour closingHour 3 = false ∧
    isRestaurantOpen openingHour closingHour 8 = false ∧
    isRestaurantOpen openingHour closingHour 9 = true := by
  refine ⟨?_, by decide, by decide, by decide, by decide⟩
  intro hour
  simp [isRestaurantOpen, openingHour, closingHour]

/-- C8 counterexample: `validate_quantity` rejects 100, but
`add_to_order` never consults it — adding quantity 100 succeeds and the
cart gains a 100-unit line. -/
theorem quantity_bound_cex :
    (validateQuantity 100).1 = false ∧
    (addToOrder [("A", ⟨"أ", "A", 10, true⟩)] "A" 100 "" []).1.success = true ∧
    (addToOrder [("A", ⟨"أ", "A", 10, true⟩)] "A" 100 "" []).2 =
      [⟨"A", "أ", "A", 100, 10, "", 1000⟩] := by
  refine ⟨by decide, ?_, ?_⟩ <;>
    norm_num [addToOrder, menuLookup, mergeOrAppend, cartSubtotal, cartItemCount]

/--
C10.  `update_order_item` with `quantity=0` together with a `notes`
value is not frame-respecting: after the removal it writes the notes to
the line that slid into the removed index (here line B, when A was
removed), and raises `IndexError` when the removed line was the last
one; with both arguments omitted it raises `UnboundLocalError`.
-/
theorem update_order_item_wrong_line_bug :
    updateOrderItem "A" (some 0) (some "بدون بصل")
        [⟨"A", "أ", "a", 1, 10, "", 10⟩, ⟨"B", "ب", "b", 2, 5, "", 10⟩] =
      .ok ({ success := true, action := some .updated,
             message_ar := "تمام، حدثت الملاحظات" },
           [⟨"B", "ب", "b", 2, 5, "بدون بصل", 10⟩]) ∧
    updateOrderItem "A" (some 0) (some "بدون بصل") [⟨"A", "أ", "a", 1, 10, "", 10⟩] =
      .error "IndexError: list index out of range" ∧
    updateOrderItem "A" none none [⟨"A", "أ", "a", 1, 10, "", 10⟩] =
      .error "UnboundLocalError: result" := by
  refine ⟨?_, ?_, ?_⟩ <;>
    simp [updateOrderItem, listModify, List.findIdx?, List.eraseIdx]

/-- C9 counterexample: `الروضة` is an alias of the active covered area
`حي الروضة`, yet both the alias and the full prefixed name come back not
covered, because `clean_arabic_text` rewrites teh marbuta to `ه` while
the stored names keep `ة`. -/
theorem coverage_marbuta_cex :
    ((seededAreas.filter (fun a => a.is_active)).any
        (fun a => a.aliases_ar.any (fun al => al == "الروضة"))) = true ∧
    (coverageCheck seededAreas "الروضة").is_covered = false ∧
    (coverageCheck seededAreas "حي الروضة").is_covered = false := by
  decide

/--
C9 (amended).  For every seeded covered area whose stored name and
aliases contain no teh marbuta, the coverage check is
normalization-invariant: the prefixed name (`حي …`), the bare name and
the article-free alias all come back covered with the same area id.  For
the four areas containing `ة` (الصحافة، الروضة، الربوة، السليمانية) the
lookup fails instead, because normalization rewrites `ة` to `ه` while the
stored rows are unnormalized.
-/
theorem coverage_normalization_amended :
    ∀ a ∈ seededAreas, marbutaFree a = true →
      ((coverageCheck seededAreas a.name_ar).is_covered = true ∧
       (coverageCheck seededAreas a.name_ar).area_id = some a.id ∧
       ∀ al ∈ a.aliases_ar,
         (coverageCheck seededAreas al).is_covered = true ∧
         (coverageCheck seededAreas al).area_id = some a.id) := by
  decide

/-- C9 witness: the three spellings of النرجس all resolve to area 1. -/
theorem coverage_normalization_amended_witness :
    (coverageCheck seededAreas "حي النرجس").area_id = some 1 ∧
    (coverageCheck seededAreas "النرجس").area_id = some 1 ∧
    (coverageCheck seededAreas "نرجس").area_id = some 1 := by
  have h := coverage_normalization_amended
    ⟨1, "حي النرجس", "Al Narjis", ["النرجس", "نرجس"], true⟩ (by decide) (by decide)
  exact ⟨h.2.1, (h.2.2 "النرجس" (by decide)).2, (h.2.2 "نرجس" (by decide)).2⟩

/-- C4 counterexample: FIRST20 is a 20% code with `max_discount=50`, but
on a 50 SAR cart `calculate_total` returns discount 0 (minimum-order
rule), not `min(50 × 20/100, 50) = 10` as the unconditional formula
claims. -/
theorem percentage_promo_min_order_cex :
    (calculateTotal [⟨"1", "برجر", "Burger", 1, 50, "", 50⟩] 0
        (some "FIRST20")).discount = 0 ∧
    min ((50 : ℚ) * (20 / 100)) 50 = 10 := by
  have hupF : pyUpper "FIRST20" = "FIRST20" := by decide
  constructor
  · norm_num [calculateTotal, cartSubtotal, hupF, promoDiscount]
    simp +decide
  · norm_num

/--
C4 (amended).  The percentage clamp `discount = min(subtotal × pct/100,
max_discount)` holds for every non-empty cart that meets the code's
minimum-order rule (WELCOME10 has no minimum in `calculate_total`;
FIRST20 requires subtotal ≥ 100); in particular on a 500 SAR subtotal
FIRST20 yields 50 and WELCOME10 yields 30.
-/
theorem percentage_promo_clamp_amended (cart : List OrderLine) (fee : ℚ)
    (hcart : cart ≠ []) :
    (calculateTotal cart fee (some "WELCOME10")).discount =
      min (cartSubtotal cart * (10 / 100)) 30 ∧
    (cartSubtotal cart ≥ 100 →
      (calculateTotal cart fee (some "FIRST20")).discount =
        min (cartSubtotal cart * (20 / 100)) 50) ∧
    (calculateTotal [⟨"1", "وجبة", "Meal", 1, 500, "", 500⟩] fee
        (some "FIRST20")).discount = 50 ∧
    (calculateTotal [⟨"1", "وجبة", "Meal", 1, 500, "", 500⟩] fee
        (some "WELCOME10")).discount = 30 := by
  have hne : cart.isEmpty = false := by
    cases cart with
    | nil => exact absurd rfl hcart
    | cons l ls => rfl
  have hupW : pyUpper "WELCOME10" = "WELCOME10" := by decide
  have hupF : pyUpper "FIRST20" = "FIRST20" := by decide
  refine ⟨?_, ?_, ?_, ?_⟩
  · simp [calculateTotal, hne, hupW, promoDiscount, ite_gt_clamp_eq_min]
  · intro hmin
    simp [calculateTotal, hne, hupF, promoDiscount, hmin, ite_gt_clamp_eq_min]
  · norm_num [calculateTotal, cartSubtotal, hupF, promoDiscount]
    simp +decide
  · norm_num [calculateTotal, cartSubtotal, hupW, promoDiscount]
    simp +decide

/-- C4 witness: the two 500 SAR clamp examples, via the amended
theorem at a concrete one-line cart. -/
theorem percentage_promo_clamp_amended_witness :
    (calculateTotal [⟨"1", "وجبة", "Meal", 1, 500, "", 500⟩] 0
        (some "FIRST20")).discount = 50 ∧
    (calculateTotal [⟨"1", "وجبة", "Meal", 1, 500, "", 500⟩] 0
        (some "WELCOME10")).discount = 30 := by
  have h := percentage_promo_clamp_amended
    [⟨"1", "وجبة", "Meal", 1, 500, "", 500⟩] 0 (by simp)
  exact ⟨h.2.2.1, h.2.2.2⟩

/-- Merging twice with the same `(item_id, notes)` pair equals one merge
with the summed quantity — the cart-level heart of claim C7. -/
theorem mergeOrAppend_twice (item : MenuItem) (id : String) (n m : Int)
    (notes : String) (cart : List OrderLine) :
    mergeOrAppend item id m notes (mergeOrAppend item id n notes cart) =
      mergeOrAppend item id (n + m) notes cart := by
  induction cart with
  | nil =>
    simp [mergeOrAppend, add_assoc]
  | cons l ls ih =>
    by_cases hc : l.item_id = id ∧ l.notes = notes
    · simp [mergeOrAppend, hc, add_assoc]
    · simp [mergeOrAppend, hc, ih]

/--
C7.  Duplicate-line merge: for every available menu item and notes
string, `add_to_order(id, n, notes)` followed by `add_to_order(id, m,
notes)` leaves the same cart as a single `add_to_order(id, n+m, notes)`
— one merged line whose quantity is the sum and whose `line_total` is
the stored unit price times the merged quantity.
-/
theorem add_to_order_merge (menu : Menu) (id : String) (n m : Int)
    (notes : String) (cart : List OrderLine) (item : MenuItem)
    (hfind : menuLookup menu id = some item) (hav : item.available = true) :
    (addToOrder menu id m notes (addToOrder menu id n notes cart).2).2 =
      (addToOrder menu id (n + m) notes cart).2 := by
  simp [addToOrder, hfind, hav, mergeOrAppend_twice]

/-- C7 witness: adding 1 then 2 of item "A" equals adding 3 at once. -/
theorem add_to_order_merge_witness :
    (addToOrder [("A", ⟨"أ", "A", 10, true⟩)] "A" 2 ""
        (addToOrder [("A", ⟨"أ", "A", 10, true⟩)] "A" 1 "" []).2).2 =
      (addToOrder [("A", ⟨"أ", "A", 10, true⟩)] "A" (1 + 2) "" []).2 :=
  add_to_order_merge [("A", ⟨"أ", "A", 10, true⟩)] "A" 1 2 "" []
    ⟨"أ", "A", 10, true⟩ (by decide) rfl

/-- C1 counterexample: with a non-empty cart and valid name/phone but a
failing store write (`storeOk = false`), `confirm_order` still returns
`success=true` and clears the session cart — contradicting both the
`success=false` and the cart-preserved halves of the claim. -/
theorem confirm_order_store_failure_cex :
    (confirmOrder false [⟨"1", "برجر", "Burger", 2, 10, "", 20⟩]
        "محمد" "0551234567" "حي العليا" 15 0 "delivery" "").success = true ∧
    (confirmOrder false [⟨"1", "برجر", "Burger", 2, 10, "", 20⟩]
        "محمد" "0551234567" "حي العليا" 15 0 "delivery" "").db_saved = false ∧
    (confirmOrder false [⟨"1", "برجر", "Burger", 2, 10, "", 20⟩]
        "محمد" "0551234567" "حي العليا" 15 0 "delivery" "").cart = [] ∧
    [(⟨"1", "برجر", "Burger", 2, 10, "", 20⟩ : OrderLine)] ≠ [] := by
  refine ⟨?_, ?_, ?_, by simp⟩ <;>
    simp [confirmOrder, saveOrderToDatabaseSync]

/--
C1 (amended).  Only the input validations of `confirm_order` (empty
cart, empty name, empty phone) return `success=false`, and they leave
the cart untouched and write nothing.  Once validation passes,
`confirm_order` returns `success=true` and clears the cart regardless of
whether the store write succeeded; the write itself is transactional, so
the committed rows are all-or-nothing (header plus one row per cart
line, never a partial subset).
-/
theorem confirm_order_amended (storeOk : Bool) (cart : List OrderLine)
    (customer_name customer_phone district : String)
    (delivery_fee discount : ℚ) (order_type notes : String) :
    ((cart = [] ∨ customer_name = "" ∨ customer_phone = "") →
      (confirmOrder storeOk cart customer_name customer_phone district
          delivery_fee discount order_type notes).success = false ∧
      (confirmOrder storeOk cart customer_name customer_phone district
          delivery_fee discount order_type notes).cart = cart ∧
      (confirmOrder storeOk cart customer_name customer_phone district
          delivery_fee discount order_type notes).rowsWritten = none) ∧
    (cart ≠ [] → customer_name ≠ "" → customer_phone ≠ "" →
      (confirmOrder storeOk cart customer_name customer_phone district
          delivery_fee discount order_type notes).success = true ∧
      (confirmOrder storeOk cart customer_name customer_phone district
          delivery_fee discount order_type notes).cart = [] ∧
      (confirmOrder storeOk cart customer_name customer_phone district
          delivery_fee discount order_type notes).db_saved = storeOk ∧
      (confirmOrder storeOk cart customer_name customer_phone district
          delivery_fee discount order_type notes).rowsWritten =
        (if storeOk then
          some (confirmHeader customer_name customer_phone district order_type notes
                  (cartSubtotal cart)
                  (if order_type = "delivery" then delivery_fee else 0) discount
                  (cartSubtotal cart +
                    (if order_type = "delivery" then delivery_fee else 0) - discount),
                confirmItems cart)
         else none)) := by
  constructor
  · rintro (h | h | h) <;> simp [confirmOrder, h] <;> split_ifs <;> simp_all
  · intro h1 h2 h3
    have hne : cart.isEmpty = false := by
      cases cart with
      | nil => exact absurd rfl h1
      | cons l ls => rfl
    simp [confirmOrder, hne, h2, h3, saveOrderToDatabaseSync]
    cases storeOk <;> simp

/-- C1 witness: a valid one-line delivery order with a working store
confirms and empties the cart. -/
theorem confirm_order_amended_witness :
    (confirmOrder true [⟨"1", "برجر", "Burger", 2, 10, "", 20⟩]
        "محمد" "0551234567" "حي العليا" 15 0 "delivery" "").success = true ∧
    (confirmOrder true [⟨"1", "برجر", "Burger", 2, 10, "", 20⟩]
        "محمد" "0551234567" "حي العليا" 15 0 "delivery" "").cart = [] := by
  have h := (confirm_order_amended true [⟨"1", "برجر", "Burger", 2, 10, "", 20⟩]
    "محمد" "0551234567" "حي العليا" 15 0 "delivery" "").2
    (by simp) (by decide) (by decide)
  exact ⟨h.1, h.2.1⟩

/-- Any promo lookup that is unknown, inactive, over its usage limit or
past `valid_until` makes `validate_promo` report failure with a zero
discount and a non-empty Arabic message. -/
theorem validatePromo_rejects (lookup : Option PromoCode) (now : ℤ) (subtotal : ℚ)
    (hrej : lookup = none ∨ ∃ p, lookup = some p ∧
      (p.is_active = false ∨
       (∃ l, p.usage_limit = some l ∧ l ≠ 0 ∧ l ≤ p.usage_count) ∨
       (∃ vu, p.valid_until = some vu ∧ vu < now))) :
    (validatePromo lookup now subtotal).1 = false ∧
    (validatePromo lookup now subtotal).2.1 = 0 ∧
    (validatePromo lookup now subtotal).2.2 ≠ "" := by
  rcases hrej with h | ⟨p, hp, hcase⟩
  · subst h
    simp +decide [validatePromo]
  · subst hp
    simp only [validatePromo]
    split_ifs with hact hlim hfrom huntil hmin hdisc <;>
        try simp +decide
    all_goals
      exfalso
      rcases hcase with h | ⟨l, hl, hl0, hle⟩ | ⟨vu, hvu, hlt⟩
      · exact hact h
      · rw [hl] at hlim
        simp at hlim
        omega
      · rw [hvu] at huntil
        simp at huntil
        omega

/--
C5.  For every promo code that is unknown, inactive, or expired, or over
its usage limit, the totals computation rejects it: the discount applied
is 0, the total is `subtotal + delivery_fee`, and `promo_message_ar`
carries a non-empty Arabic rejection message; the hard-coded
`calculate_total` likewise treats a code outside its three known ones as
invalid, reporting `promo_applied = false` with the Arabic message
"كود الخصم غير صحيح".
-/
theorem promo_rejection_reporting (lookup : Option PromoCode) (now : ℤ)
    (items : List McpCartItem) (code : String) (order_type : String)
    (cart : List OrderLine) (fee : ℚ)
    (hrej : lookup = none ∨ ∃ p, lookup = some p ∧
      (p.is_active = false ∨
       (∃ l, p.usage_limit = some l ∧ l ≠ 0 ∧ l ≤ p.usage_count) ∨
       (∃ vu, p.valid_until = some vu ∧ vu < now)))
    (hcode : code ≠ "") (hcart : cart ≠ [])
    (hW : pyUpper code ≠ "WELCOME10") (hF : pyUpper code ≠ "FIRST20")
    (hE : pyUpper code ≠ "FREE15") :
    (computeTotals items lookup now (some code) order_type).discount = 0 ∧
    (computeTotals items lookup now (some code) order_type).promo_message_ar ≠ "" ∧
    (computeTotals items lookup now (some code) order_type).total =
      (computeTotals items lookup now (some code) order_type).subtotal +
        (computeTotals items lookup now (some code) order_type).delivery_fee ∧
    (calculateTotal cart fee (some code)).discount = 0 ∧
    (calculateTotal cart fee (some code)).promo_applied = false ∧
    (calculateTotal cart fee (some code)).promo_message = "كود الخصم غير صحيح" := by
  obtain ⟨hv1, hv2, hv3⟩ :=
    validatePromo_rejects lookup now ((items.map (·.total_price)).sum) hrej
  have hne : cart.isEmpty = false := by
    cases cart with
    | nil => exact absurd rfl hcart
    | cons l ls => rfl
  refine ⟨?_, ?_, ?_, ?_, ?_, ?_⟩ <;>
    simp [computeTotals, calculateTotal, promoDiscount, hcode, hne,
      hW, hF, hE, hv1, hv2, hv3]

/-- C5 witness: the unknown code "BOGUS" is rejected with a message and
a zero discount on a 100 SAR cart. -/
theorem promo_rejection_reporting_witness :
    (computeTotals [⟨100, 1⟩] none 0 (some "BOGUS") "delivery").discount = 0 ∧
    (computeTotals [⟨100, 1⟩] none 0 (some "BOGUS") "delivery").promo_message_ar ≠ "" ∧
    (calculateTotal [⟨"1", "وجبة", "Meal", 1, 100, "", 100⟩] 15
        (some "BOGUS")).discount = 0 := by
  have h := promo_rejection_reporting none 0 [⟨100, 1⟩] "BOGUS" "delivery"
    [⟨"1", "وجبة", "Meal", 1, 100, "", 100⟩] 15 (Or.inl rfl)
    (by decide) (by simp) (by decide) (by decide) (by decide)
  exact ⟨h.1, h.2.1, h.2.2.2.1⟩

/--
C8 (amended).  `validate_quantity` rejects exactly the quantities
outside [1, 99]; but the langchain order tools perform no quantity
validation at all: `add_to_order` succeeds for every quantity (including
100), and `update_order_item` likewise sets any positive quantity such
as 100 on the matched line.
-/
theorem quantity_validation_amended (q : Int) (menu : Menu) (id : String)
    (notes : String) (cart : List OrderLine) (item : MenuItem)
    (hfind : menuLookup menu id = some item) (hav : item.available = true) :
    ((validateQuantity q).1 = false ↔ (q < 1 ∨ 99 < q)) ∧
    (addToOrder menu id q notes cart).1.success = true ∧
    updateOrderItem "A" (some 100) none [⟨"A", "أ", "A", 1, 10, "", 10⟩] =
      .ok ({ success := true, action := some .updated,
             message_ar := "تمام، عدلت الكمية" },
           [⟨"A", "أ", "A", 100, 10, "", 1000⟩]) := by
  refine ⟨?_, ?_, ?_⟩
  · unfold validateQuantity
    split_ifs <;> simp <;> omega
  · simp [addToOrder, hfind, hav]
  · simp [updateOrderItem, listModify, List.findIdx?]
    norm_num

/-- C8 witness: quantity 100 fails validation yet `add_to_order`
accepts it. -/
theorem quantity_validation_amended_witness :
    (validateQuantity 100).1 = false ∧
    (addToOrder [("A", ⟨"أ", "A", 10, true⟩)] "A" 100 "" []).1.success = true := by
  have h := quantity_validation_amended 100 [("A", ⟨"أ", "A", 10, true⟩)] "A" "" []
    ⟨"أ", "A", 10, true⟩ (by decide) rfl
  exact ⟨h.1.mpr (by omega), h.2.1⟩

end Sawt
